import Mathlib

/-!
Shallow embedding of the resilient interaction core of
`src/instagram_post_automation.py`: the retry wrapper `exceptional_handler`,
the polling combinator `wait_until`, the `InstagramBot.login` and
`InstagramBot.post_image` workflows and `BrowserHandler.kill_browser`.

Python exceptions are modelled by the inductive `PyExc`; fallible operations
return `Except PyExc α`.  Remote-driver state is modelled by records of
oracles (one field per distinct driver interaction), and each workflow
returns, besides its result, the list of driver interactions it issued, so
that "no driver call happens" claims are statements about that trace.
-/

/-- Model of the Python exception values raised or caught in the source.
The first seven constructors are the classes named in the module-level
`COMMON_EXCEPTIONS` tuple; `valueError`, `fileNotFound` and the generic
`exception` are the non-selenium exceptions the module raises itself.
Every constructor carries its message string (`str(e)` is modelled as that
carried message). -/
inductive PyExc where
  | noSuchElement (msg : String)
  | timeout (msg : String)
  | staleElementReference (msg : String)
  | elementClickIntercepted (msg : String)
  | webDriver (msg : String)
  | elementNotInteractable (msg : String)
  | noSuchAttribute (msg : String)
  | valueError (msg : String)
  | fileNotFound (msg : String)
  | exception (msg : String)
  deriving Repr, DecidableEq

/-- The message carried by an exception (the model of Python `str(e)`). -/
def PyExc.msg : PyExc → String
  | .noSuchElement m => m
  | .timeout m => m
  | .staleElementReference m => m
  | .elementClickIntercepted m => m
  | .webDriver m => m
  | .elementNotInteractable m => m
  | .noSuchAttribute m => m
  | .valueError m => m
  | .fileNotFound m => m
  | .exception m => m

/-- Membership in the `COMMON_EXCEPTIONS` tuple (lines 20-23 of the source):
exactly the seven selenium interaction-fault classes are caught by the
retry wrapper. -/
def isCommonException : PyExc → Bool
  | .noSuchElement _ => true
  | .timeout _ => true
  | .staleElementReference _ => true
  | .elementClickIntercepted _ => true
  | .webDriver _ => true
  | .elementNotInteractable _ => true
  | .noSuchAttribute _ => true
  | .valueError _ => false
  | .fileNotFound _ => false
  | .exception _ => false

/-- Embedding of `exceptional_handler` (source lines 142-158).
`op i` is the outcome of the wrapped operation on the attempt made with
retry counter `i`.  The second component of the result counts how many
times the wrapped operation was actually executed.  The wrapper checks
`retry >= max_retries` at entry, before attempting; on an exception in
`COMMON_EXCEPTIONS` it recurses with `retry + 1`; any other exception
propagates unchanged. -/
def exceptional_handler {α : Type} (op : Nat → Except PyExc α)
    (retry maxRetries : Nat) : Except PyExc α × Nat :=
  if _h : retry ≥ maxRetries then
    (.error (.exception "Maximum retries reached!"), 0)
  else
    match op retry with
    | .ok v => (.ok v, 1)
    | .error f =>
      if isCommonException f then
        let r := exceptional_handler op (retry + 1) maxRetries
        (r.1, r.2 + 1)
      else (.error f, 1)
termination_by maxRetries - retry
decreasing_by omega

/-- The default `max_retries` of `exceptional_handler` (`kwargs.get("max_retries", 2)`). -/
def defaultMaxRetries : Nat := 2

/-- Result of one run of the `wait_until` loop: the returned boolean
(`not not_completed`), the number of predicate evaluations performed, the
number of `in_loop_before` hook invocations, and the number of `after_loop`
hook invocations. -/
structure PollResult where
  result : Bool
  evals : Nat
  inLoopBefore : Nat
  afterLoop : Nat
  deriving Repr, DecidableEq

/-- Embedding of the `while True` loop of `wait_until` (source lines
168-181), fuelled so that non-termination is expressible: `none` means the
loop did not exit within `fuel` iterations.  `p i` is the value of the
`i`-th predicate evaluation (0-indexed); `attempt` is the loop's `attempt`
counter, which at the start of each iteration equals the number of
iterations already completed.  Each iteration first invokes the
`in_loop_before` hook, then evaluates the predicate (break on success),
then breaks with failure when `max_attempts != -1 and attempt >= max_attempts`,
and otherwise increments `attempt` and continues.  The `after_loop` hook
runs exactly once on loop exit. -/
def wait_until_go (p : Nat → Bool) (maxAttempts : Int) :
    Nat → Nat → Option PollResult
  | 0, _ => none
  | fuel + 1, attempt =>
    if p attempt then
      some ⟨true, attempt + 1, attempt + 1, 1⟩
    else if maxAttempts ≠ -1 ∧ (attempt : Int) ≥ maxAttempts then
      some ⟨false, attempt + 1, attempt + 1, 1⟩
    else
      wait_until_go p maxAttempts fuel (attempt + 1)

/-- `wait_until`'s wrapper run from its initial state (`attempt = 0`). -/
def wait_until_run (p : Nat → Bool) (maxAttempts : Int) (fuel : Nat) :
    Option PollResult :=
  wait_until_go p maxAttempts fuel 0

/-- The default `max_tries` of `wait_until` (`kwargs.get("max_tries", -1)`). -/
def defaultMaxTries : Int := -1

/-- Structural version of the `wait_until` loop for a non-negative attempt
budget: `remaining` is `max_attempts - attempt`.  With `remaining = M` and
`attempt = 0` this is the loop with budget `M`; `wait_until_go_agrees`
below proves it agrees with the fuelled embedding. -/
def waitLoop (p : Nat → Bool) : Nat → Nat → PollResult
  | 0, attempt =>
    if p attempt then ⟨true, attempt + 1, attempt + 1, 1⟩
    else ⟨false, attempt + 1, attempt + 1, 1⟩
  | r + 1, attempt =>
    if p attempt then ⟨true, attempt + 1, attempt + 1, 1⟩
    else waitLoop p r (attempt + 1)

/-- `wait_until` with a non-negative budget `M`, run from the initial state. -/
def wait_until_bounded (p : Nat → Bool) (M : Nat) : PollResult :=
  waitLoop p M 0

theorem waitLoop_true (p : Nat → Bool) {a : Nat} (hp : p a = true) (r : Nat) :
    waitLoop p r a = ⟨true, a + 1, a + 1, 1⟩ := by
  cases r <;> simp [waitLoop, hp]

theorem waitLoop_zero_false (p : Nat → Bool) {a : Nat} (hp : p a = false) :
    waitLoop p 0 a = ⟨false, a + 1, a + 1, 1⟩ := by
  simp [waitLoop, hp]

theorem waitLoop_succ_false (p : Nat → Bool) {a r : Nat} (hp : p a = false) :
    waitLoop p (r + 1) a = waitLoop p r (a + 1) := by
  simp [waitLoop, hp]

theorem wait_until_go_agrees (p : Nat → Bool) (M : Nat) :
    ∀ fuel attempt, attempt ≤ M → M - attempt < fuel →
      wait_until_go p (M : Int) fuel attempt =
        some (waitLoop p (M - attempt) attempt) := by
  intro fuel
  induction fuel with
  | zero => intro a _ h; omega
  | succ n ih =>
    intro a ha hfuel
    rw [wait_until_go]
    by_cases hp : p a
    · simp [hp, waitLoop_true p hp]
    · have hp' : p a = false := by simpa using hp
      simp only [hp', Bool.false_eq_true, if_false]
      by_cases hend : a = M
      · have hc : ((M : Int) ≠ -1 ∧ (a : Int) ≥ (M : Int)) := ⟨by omega, by omega⟩
        rw [if_pos hc]
        have h0 : M - a = 0 := by omega
        rw [h0, waitLoop_zero_false p hp']
      · have hlt : a < M := by omega
        have hcond : ¬ ((M : Int) ≠ -1 ∧ (a : Int) ≥ (M : Int)) := by
          intro hc
          have := hc.2
          omega
        rw [if_neg hcond]
        have hr : M - a = (M - (a + 1)) + 1 := by omega
        rw [hr, waitLoop_succ_false p hp']
        exact ih (a + 1) (by omega) (by omega)

theorem waitLoop_always_false (p : Nat → Bool) (hp : ∀ n, p n = false) :
    ∀ r a, waitLoop p r a = ⟨false, a + r + 1, a + r + 1, 1⟩ := by
  intro r
  induction r with
  | zero => intro a; simp [waitLoop_zero_false p (hp a)]
  | succ n ih =>
    intro a
    rw [waitLoop_succ_false p (hp a), ih (a + 1)]
    congr 1 <;> omega

theorem waitLoop_first_true (p : Nat → Bool) (t : Nat) (ht : p t = true)
    (hbefore : ∀ j, j < t → p j = false) :
    ∀ r a, a ≤ t → t ≤ a + r → waitLoop p r a = ⟨true, t + 1, t + 1, 1⟩ := by
  intro r
  induction r with
  | zero =>
    intro a ha hr
    have : a = t := by omega
    rw [this, waitLoop_true p ht]
  | succ n ih =>
    intro a ha hr
    by_cases hat : a = t
    · rw [hat, waitLoop_true p ht]
    · have hlt : a < t := by omega
      rw [waitLoop_succ_false p (hbefore a hlt)]
      exact ih (a + 1) (by omega) (by omega)

theorem waitLoop_evals_le (p : Nat → Bool) :
    ∀ r a, (waitLoop p r a).evals ≤ a + r + 1 := by
  intro r
  induction r with
  | zero =>
    intro a
    by_cases hp : p a
    · rw [waitLoop_true p hp]
    · rw [waitLoop_zero_false p (by simpa using hp)]
  | succ n ih =>
    intro a
    by_cases hp : p a
    · rw [waitLoop_true p hp]; simp
    · rw [waitLoop_succ_false p (by simpa using hp)]
      have := ih (a + 1)
      omega

theorem wait_until_go_unbounded (p : Nat → Bool) (hp : ∀ n, p n = false) :
    ∀ fuel a, wait_until_go p (-1) fuel a = none := by
  intro fuel
  induction fuel with
  | zero => intro a; rfl
  | succ n ih =>
    intro a
    rw [wait_until_go]
    have hc : ¬ ((-1 : Int) ≠ -1 ∧ (a : Int) ≥ (-1 : Int)) := by
      intro hc
      exact hc.1 rfl
    rw [if_neg (by simp [hp a]), if_neg hc]
    exact ih (a + 1)

theorem wait_until_go_neg_exits (p : Nat → Bool) (M : Int) (hM : M < -1)
    (fuel a : Nat) (hfuel : 1 ≤ fuel) (hp : p a = false) :
    wait_until_go p M fuel a = some ⟨false, a + 1, a + 1, 1⟩ := by
  match fuel, hfuel with
  | n + 1, _ =>
    rw [wait_until_go]
    have hc : (M ≠ -1 ∧ (a : Int) ≥ M) := ⟨by omega, by omega⟩
    rw [if_neg (by simp [hp]), if_pos hc]

theorem exceptional_handler_exhausts_from {α : Type} (op : Nat → Except PyExc α)
    (h : ∀ i, ∃ f, op i = .error f ∧ isCommonException f = true) :
    ∀ d retry, exceptional_handler op retry (retry + d) =
      (.error (.exception "Maximum retries reached!"), d) := by
  intro d
  induction d with
  | zero =>
    intro retry
    rw [exceptional_handler]
    simp
  | succ n ih =>
    intro retry
    rw [exceptional_handler]
    rw [dif_neg (by omega)]
    obtain ⟨f, hf, hcommon⟩ := h retry
    rw [hf]
    simp only [hcommon, if_true]
    have hr : retry + (n + 1) = (retry + 1) + n := by omega
    rw [hr, ih (retry + 1)]

/-- Python `str.rfind` over a character list: the last index of `c`, or `-1`
when `c` does not occur. -/
def rfindAux (c : Char) : List Char → Nat → Int → Int
  | [], _, best => best
  | ch :: rest, i, best =>
    rfindAux c rest (i + 1) (if ch = c then (i : Int) else best)

def rfind (cs : List Char) (c : Char) : Int := rfindAux c cs 0 (-1)

/-- The extension component of `os.path.splitext` (POSIX separator `/`, as
in CPython's `genericpath._splitext`): the suffix starting at the last dot,
provided that dot lies after the last path separator and the basename does
not consist solely of leading dots up to it; otherwise the empty string. -/
def splitext_ext (p : String) : String :=
  let cs := p.toList
  let sepIndex := rfind cs '/'
  let dotIndex := rfind cs '.'
  if dotIndex > sepIndex then
    let fnIdx := (sepIndex + 1).toNat
    let dIdx := dotIndex.toNat
    if (List.range (dIdx - fnIdx)).any (fun k => cs.getD (fnIdx + k) '.' != '.') then
      String.mk (cs.drop dIdx)
    else ""
  else ""

/-- Python `str.lower`, restricted to the ASCII range (extensions compared
by the source are ASCII). -/
def strLower (s : String) : String := String.mk (s.toList.map Char.toLower)

/-- The `allowed_extensions` list of `InstagramBot.post_image` (line 330). -/
def allowed_extensions : List String := [".jpg", ".jpeg", ".png", ".gif", ".mp4", ".mov"]

/-- One driver interaction issued by `InstagramBot.login`. -/
inductive LoginAction where
  | navigate
  | checkHome
  | writeUsername
  | writePassword
  | clickSubmit
  | pollHome
  deriving Repr, DecidableEq

/-- Oracle for the remote state seen by `InstagramBot.login`.
`homePresent i` is the truth of `find_elements("svg[aria-label=Home]")`
being non-empty on its `i`-th invocation (`i = 0` is the check right after
navigation; `i = 1, 2, ...` are the evaluations inside the `wait_until`
poll).  The three `Except` fields are the outcomes of the retry-wrapped
`write`/`click_element` primitives (navigation itself is assumed to
succeed). -/
structure LoginDriver where
  homePresent : Nat → Bool
  writeUser : Except PyExc Unit
  writePass : Except PyExc Unit
  submitClick : Except PyExc Unit

/-- The `except Exception` wrap at the end of `login` (line 315). -/
def loginWrap (e : PyExc) : PyExc := .exception ("Login failed: " ++ e.msg)

/-- Embedding of `InstagramBot.login` (source lines 298-315): navigate to
the root; if the Home landmark is already present return `True` at once;
otherwise write the username, write the password, click submit, and poll
(`wait_until`, `max_tries=20`) for the landmark, raising
`TimeoutException("No login confirmation")` on exhaustion.  Any exception
is re-raised wrapped in `Exception("Login failed: ...")`.  The second
component is the ordered trace of driver interactions issued. -/
def login (d : LoginDriver) : Except PyExc Bool × List LoginAction :=
  if d.homePresent 0 then
    (.ok true, [.navigate, .checkHome])
  else
    match d.writeUser with
    | .error e => (.error (loginWrap e), [.navigate, .checkHome, .writeUsername])
    | .ok _ =>
      match d.writePass with
      | .error e =>
        (.error (loginWrap e), [.navigate, .checkHome, .writeUsername, .writePassword])
      | .ok _ =>
        match d.submitClick with
        | .error e =>
          (.error (loginWrap e),
           [.navigate, .checkHome, .writeUsername, .writePassword, .clickSubmit])
        | .ok _ =>
          let r := wait_until_bounded (fun i => d.homePresent (i + 1)) 20
          if r.result then
            (.ok true,
             [.navigate, .checkHome, .writeUsername, .writePassword, .clickSubmit, .pollHome])
          else
            (.error (loginWrap (.timeout "No login confirmation")),
             [.navigate, .checkHome, .writeUsername, .writePassword, .clickSubmit, .pollHome])

/-- One remote-driver interaction issued by `InstagramBot.post_image`
(local filesystem checks are not driver interactions and do not appear). -/
inductive PostAction where
  | clickNewPost
  | clickSelectNew
  | writeFileInput (path : String)
  | pollCrop
  | clickCropNext
  | pollEdit
  | clickEditNext
  | pollCompose
  | writeCaption (text : String)
  | clickShare
  | pollCompletion
  deriving Repr, DecidableEq

/-- Oracle for the remote state seen by `InstagramBot.post_image`.
`fileExists` models `os.path.exists(image_path)`; each `xxxPresent i` is
the `i`-th evaluation of the corresponding `wait_until` predicate;
`cropButtons`/`editButtons`/`composeButtons` are the visible labels
(`get_text`) of the `div[role=button]` candidates scanned in each dialog;
the `Except` fields are outcomes of the retry-wrapped `click_element` /
`write` primitives. -/
structure PostDriver where
  fileExists : Bool
  newPostClick : Except PyExc Unit
  selectNewClick : Except PyExc Unit
  fileInputWrite : Except PyExc Unit
  cropPresent : Nat → Bool
  cropButtons : List String
  cropNextClick : Except PyExc Unit
  editPresent : Nat → Bool
  editButtons : List String
  editNextClick : Except PyExc Unit
  composePresent : Nat → Bool
  captionWrite : Except PyExc Unit
  composeButtons : List String
  shareClick : Except PyExc Unit
  dialogsGone : Nat → Bool

/-- The `except Exception` wrap at the end of `post_image` (line 365). -/
def postWrap (e : PyExc) : PyExc := .exception ("Post failed: " ++ e.msg)

/-- Embedding of `InstagramBot.post_image` (source lines 317-365).
Validation first (`os.path.exists`, then extension allow-list, both before
any driver interaction); then the strictly ordered gated steps: open the
composer, select new post, write the file path into the file input, poll
for the crop dialog (20 tries), click its "Next" button (label-based scan;
nothing is clicked when no candidate is labelled "Next"), poll for the
edit dialog (20 tries), click its "Next", poll for the create-new-post
dialog (20 tries), write the caption, click "Share", and poll (60 tries)
for all dialogs to be gone.  Exhausted polls raise step-named
`TimeoutException`s; every exception is re-raised wrapped in
`Exception("Post failed: ...")`. -/
def post_image (d : PostDriver) (imagePath caption : String) :
    Except PyExc Bool × List PostAction :=
  if d.fileExists = false then
    (.error (postWrap (.fileNotFound ("Image file not found: " ++ imagePath))), [])
  else
    let fileExtension := strLower (splitext_ext imagePath)
    if fileExtension ∉ allowed_extensions then
      (.error (postWrap (.valueError ("Unsupported file type: " ++ fileExtension))), [])
    else
      match d.newPostClick with
      | .error e => (.error (postWrap e), [.clickNewPost])
      | .ok _ =>
      match d.selectNewClick with
      | .error e => (.error (postWrap e), [.clickNewPost, .clickSelectNew])
      | .ok _ =>
      match d.fileInputWrite with
      | .error e =>
        (.error (postWrap e), [.clickNewPost, .clickSelectNew, .writeFileInput imagePath])
      | .ok _ =>
      let t3 : List PostAction := [.clickNewPost, .clickSelectNew, .writeFileInput imagePath]
      if (wait_until_bounded d.cropPresent 20).result = false then
        (.error (postWrap (.timeout "Crop dialog not found")), t3 ++ [.pollCrop])
      else
      let cropScan : Except PyExc Unit × List PostAction :=
        if "Next" ∈ d.cropButtons then (d.cropNextClick, [.clickCropNext]) else (.ok (), [])
      match cropScan.1 with
      | .error e => (.error (postWrap e), t3 ++ [.pollCrop] ++ cropScan.2)
      | .ok _ =>
      let t5 : List PostAction := t3 ++ [.pollCrop] ++ cropScan.2
      if (wait_until_bounded d.editPresent 20).result = false then
        (.error (postWrap (.timeout "Edit dialog not found")), t5 ++ [.pollEdit])
      else
      let editScan : Except PyExc Unit × List PostAction :=
        if "Next" ∈ d.editButtons then (d.editNextClick, [.clickEditNext]) else (.ok (), [])
      match editScan.1 with
      | .error e => (.error (postWrap e), t5 ++ [.pollEdit] ++ editScan.2)
      | .ok _ =>
      let t7 : List PostAction := t5 ++ [.pollEdit] ++ editScan.2
      if (wait_until_bounded d.composePresent 20).result = false then
        (.error (postWrap (.timeout "Create new post dialog not found")), t7 ++ [.pollCompose])
      else
      match d.captionWrite with
      | .error e =>
        (.error (postWrap e), t7 ++ [.pollCompose, .writeCaption caption])
      | .ok _ =>
      let t9 : List PostAction := t7 ++ [.pollCompose, .writeCaption caption]
      let shareScan : Except PyExc Unit × List PostAction :=
        if "Share" ∈ d.composeButtons then (d.shareClick, [.clickShare]) else (.ok (), [])
      match shareScan.1 with
      | .error e => (.error (postWrap e), t9 ++ shareScan.2)
      | .ok _ =>
      let t10 : List PostAction := t9 ++ shareScan.2
      if (wait_until_bounded d.dialogsGone 60).result = false then
        (.error (postWrap (.timeout "Unexpected confirmation error")), t10 ++ [.pollCompletion])
      else
        (.ok true, t10 ++ [.pollCompletion])

/-- State of a `BrowserHandler` relevant to teardown: whether `self.driver`
is set (not `None`).  `__init__` sets it to `None`; `start_chrome` sets it
to the live driver; `kill_browser` never assigns it. -/
structure HandlerState where
  driverSet : Bool
  deriving Repr, DecidableEq

/-- One side effect performed by `BrowserHandler.kill_browser`. -/
inductive KillAction where
  | quit
  | exitContext
  | deleteProfile
  deriving Repr, DecidableEq

/-- Embedding of `BrowserHandler.kill_browser` (source lines 264-280):
return immediately when `self.driver` is `None`; otherwise quit the
driver, exit the seleniumbase context, and — unless `delete_profile` is
false — spawn the platform-appropriate recursive profile deletion.  The
method never assigns `self.driver`, so the returned state carries the
unchanged `driverSet` flag. -/
def kill_browser (s : HandlerState) (platformName : String)
    (deleteProfile : Bool) : HandlerState × List KillAction :=
  if s.driverSet = false then (s, [])
  else
    if deleteProfile = false then (s, [.quit, .exitContext])
    else if platformName = "LINUX" ∨ platformName = "DARWIN" then
      (s, [.quit, .exitContext, .deleteProfile])
    else if platformName = "WINDOWS" then
      (s, [.quit, .exitContext, .deleteProfile])
    else (s, [.quit, .exitContext])

/-- C1 (counterexample): with `max_tries = 0` and an always-false predicate,
`wait_until` evaluates the predicate once — not the zero times the claim's
"exactly M evaluations" demands at `M = 0`. -/
theorem wait_until_budget_eval_count_cex :
    wait_until_run (fun _ => false) 0 5 = some ⟨false, 1, 1, 1⟩ ∧ (1 : Nat) ≠ 0 :=
  ⟨by decide, by decide⟩

/-- C1 (amended): for every budget `M ≥ 0` and every predicate that never
becomes true, `wait_until` returns false after exactly `M + 1` predicate
evaluations (one per loop iteration, the budget being checked only after a
failed evaluation), and the `after_loop` hook fires exactly once. -/
theorem wait_until_always_false_evals (M : Nat) (p : Nat → Bool)
    (hp : ∀ n, p n = false) :
    wait_until_run p (M : Int) (M + 2) = some ⟨false, M + 1, M + 1, 1⟩ := by
  have h := wait_until_go_agrees p M (M + 2) 0 (by omega) (by omega)
  rw [wait_until_run] at *
  rw [h]
  rw [waitLoop_always_false p hp (M - 0) 0]
  simp

/-- C1 witness: the amended statement at `M = 2` with the constantly false
predicate. -/
theorem wait_until_always_false_evals_witness :
    wait_until_run (fun _ => false) (2 : Int) (2 + 2) = some ⟨false, 3, 3, 1⟩ :=
  wait_until_always_false_evals 2 (fun _ => false) (fun _ => rfl)

/-- C3 (counterexample): with `max_tries = -2` (negative but not `-1`) and an
always-false predicate, `wait_until` terminates at once, returning false
after a single evaluation — refuting "every negative budget polls
unboundedly". -/
theorem wait_until_negative_budget_cex :
    wait_until_run (fun _ => false) (-2) 5 = some ⟨false, 1, 1, 1⟩ ∧
    (-2 : Int) < 0 ∧ (-2 : Int) ≠ -1 :=
  ⟨by decide, by decide, by decide⟩

/-- C3 (amended): only `max_tries = -1` is the unbounded sentinel — with it
an always-false predicate makes the loop run forever (no amount of fuel
makes it exit) — while any budget strictly below `-1` makes `wait_until`
return false immediately after a single failed evaluation. -/
theorem wait_until_unbounded_only_at_minus_one :
    (∀ (p : Nat → Bool), (∀ n, p n = false) →
       ∀ fuel, wait_until_run p (-1) fuel = none) ∧
    (∀ (M : Int), M < -1 → ∀ (p : Nat → Bool) (fuel : Nat), 1 ≤ fuel →
       p 0 = false → wait_until_run p M fuel = some ⟨false, 1, 1, 1⟩) := by
  constructor
  · intro p hp fuel
    exact wait_until_go_unbounded p hp fuel 0
  · intro M hM p fuel hfuel hp
    exact wait_until_go_neg_exits p M hM fuel 0 hfuel hp

/-- C3 witness: the amended statement at `max_tries = -1` (7 fuel, still no
exit) and at `max_tries = -3` (immediate false). -/
theorem wait_until_unbounded_only_at_minus_one_witness :
    wait_until_run (fun _ => false) (-1) 7 = none ∧
    wait_until_run (fun _ => false) (-3) 7 = some ⟨false, 1, 1, 1⟩ :=
  ⟨wait_until_unbounded_only_at_minus_one.1 (fun _ => false) (fun _ => rfl) 7,
   wait_until_unbounded_only_at_minus_one.2 (-3) (by decide) (fun _ => false) 7
     (by decide) rfl⟩

/-- C5: with budget `M ≥ 0` and a predicate first true on its `k`-th
evaluation, `k ≤ M`, `wait_until` returns true after exactly `k`
evaluations — it stops evaluating as soon as the predicate holds — and the
`after_loop` hook fires once. -/
theorem wait_until_first_true_evals (M k : Nat) (p : Nat → Bool)
    (hk1 : 1 ≤ k) (hkM : k ≤ M)
    (hbefore : ∀ j, j + 1 < k → p j = false) (htrue : p (k - 1) = true) :
    wait_until_run p (M : Int) (M + 2) = some ⟨true, k, k, 1⟩ := by
  have h := wait_until_go_agrees p M (M + 2) 0 (by omega) (by omega)
  rw [wait_until_run, h]
  have hfirst := waitLoop_first_true p (k - 1) htrue
    (fun j hj => hbefore j (by omega)) (M - 0) 0 (by omega) (by omega)
  rw [hfirst]
  have hk : k - 1 + 1 = k := by omega
  rw [hk]

/-- C5 witness: budget 5, predicate first true on its 3rd evaluation. -/
theorem wait_until_first_true_evals_witness :
    wait_until_run (fun n => decide (n = 2)) (5 : Int) (5 + 2) =
      some ⟨true, 3, 3, 1⟩ :=
  wait_until_first_true_evals 5 3 (fun n => decide (n = 2)) (by decide) (by decide)
    (fun j hj => by
      have : j ≠ 2 := by omega
      simp [this])
    (by decide)

/-- C10: for every budget `M ≥ 0` the `wait_until` loop terminates on every
predicate, performing at most `M + 1` predicate evaluations; the default
budget (`max_tries` omitted) is the negative unbounded sentinel `-1`, so
unbounded polling can only arise from an omitted or negative budget. -/
theorem wait_until_nonneg_budget_terminates :
    (∀ (M : Nat) (p : Nat → Bool), ∃ r : PollResult,
        wait_until_run p (M : Int) (M + 2) = some r ∧ r.evals ≤ M + 1) ∧
    defaultMaxTries < 0 := by
  constructor
  · intro M p
    refine ⟨waitLoop p (M - 0) 0, ?_, ?_⟩
    · rw [wait_until_run, wait_until_go_agrees p M (M + 2) 0 (by omega) (by omega)]
    · have := waitLoop_evals_le p (M - 0) 0
      omega
  · decide

/-- C10 witness: the statement instantiated at budget 1. -/
theorem wait_until_nonneg_budget_terminates_witness :
    (∃ r : PollResult,
        wait_until_run (fun _ => false) (1 : Int) (1 + 2) = some r ∧ r.evals ≤ 2) ∧
    defaultMaxTries < 0 :=
  ⟨wait_until_nonneg_budget_terminates.1 1 (fun _ => false),
   wait_until_nonneg_budget_terminates.2⟩

/-- C2: with retry ceiling `N` and an operation that always raises a
transient interaction fault, `exceptional_handler` executes the wrapped
operation exactly `N` times and then raises the terminal
`"Maximum retries reached!"` error; the `(N+1)`-th execution never happens
because the counter is checked against the ceiling at entry. -/
theorem exceptional_handler_exhausts_budget (N : Nat) (op : Nat → Except PyExc Nat)
    (h : ∀ i, ∃ f, op i = .error f ∧ isCommonException f = true) :
    exceptional_handler op 0 N =
      (.error (.exception "Maximum retries reached!"), N) := by
  have := exceptional_handler_exhausts_from op h N 0
  simpa using this

/-- C2 witness: ceiling 2 and an operation that always times out — exactly
2 executions, then the terminal error. -/
theorem exceptional_handler_exhausts_budget_witness :
    exceptional_handler (fun _ => (.error (.timeout "t") : Except PyExc Nat)) 0 2 =
      (.error (.exception "Maximum retries reached!"), 2) :=
  exceptional_handler_exhausts_budget 2 _ (fun _ => ⟨.timeout "t", rfl, rfl⟩)

/-- C4: inside a retry-wrapped call, a fault in the designated transient set
(`COMMON_EXCEPTIONS`) triggers a retry — here, with a second attempt that
succeeds, the wrapper returns that success after exactly 2 executions —
while a fault of any other kind propagates immediately to the caller after
a single execution, with no retry attempt. -/
theorem exceptional_handler_fault_dispatch (f : PyExc) (v : Nat)
    (op : Nat → Except PyExc Nat) (N : Nat)
    (h0 : op 0 = .error f) (h1 : op 1 = .ok v) (hN : 2 ≤ N) :
    (isCommonException f = false → exceptional_handler op 0 N = (.error f, 1)) ∧
    (isCommonException f = true → exceptional_handler op 0 N = (.ok v, 2)) := by
  constructor
  · intro hc
    rw [exceptional_handler, dif_neg (by omega), h0]
    simp [hc]
  · intro hc
    have hsecond : exceptional_handler op (0 + 1) N = (.ok v, 1) := by
      rw [exceptional_handler, dif_neg (by omega), h1]
    rw [exceptional_handler, dif_neg (by omega), h0]
    simp [hc, hsecond]

/-- C4 witness: a `ValueError` (non-transient) propagates unretried after
one execution; a `TimeoutException` (transient) is retried and the second
attempt's success is returned. -/
theorem exceptional_handler_fault_dispatch_witness :
    (exceptional_handler
        (fun i => if i = 0 then (.error (.valueError "bad") : Except PyExc Nat) else .ok 7)
        0 2 = (.error (.valueError "bad"), 1)) ∧
    (exceptional_handler
        (fun i => if i = 0 then (.error (.timeout "t") : Except PyExc Nat) else .ok 7)
        0 2 = (.ok 7, 2)) :=
  ⟨(exceptional_handler_fault_dispatch (.valueError "bad") 7 _ 2 rfl rfl (by decide)).1 rfl,
   (exceptional_handler_fault_dispatch (.timeout "t") 7 _ 2 rfl rfl (by decide)).2 rfl⟩

/-- C6: when the authenticated-only Home landmark is already present after
navigation, `login` returns success having issued only the navigation and
the landmark check — no username write, no password write, no submit
click — so two successive calls on an already-authenticated session both
succeed and neither submits credentials. -/
theorem login_idempotent_when_authenticated (d1 d2 : LoginDriver)
    (h1 : d1.homePresent 0 = true) (h2 : d2.homePresent 0 = true) :
    login d1 = (.ok true, [.navigate, .checkHome]) ∧
    login d2 = (.ok true, [.navigate, .checkHome]) ∧
    (∀ a ∈ (login d1).2, a ≠ LoginAction.writeUsername ∧
      a ≠ LoginAction.writePassword ∧ a ≠ LoginAction.clickSubmit) ∧
    (∀ a ∈ (login d2).2, a ≠ LoginAction.writeUsername ∧
      a ≠ LoginAction.writePassword ∧ a ≠ LoginAction.clickSubmit) := by
  have e1 : login d1 = (.ok true, [.navigate, .checkHome]) := by
    rw [login, if_pos h1]
  have e2 : login d2 = (.ok true, [.navigate, .checkHome]) := by
    rw [login, if_pos h2]
  refine ⟨e1, e2, ?_, ?_⟩
  · rw [e1]
    intro a ha
    simp at ha
    rcases ha with rfl | rfl <;> exact ⟨by decide, by decide, by decide⟩
  · rw [e2]
    intro a ha
    simp at ha
    rcases ha with rfl | rfl <;> exact ⟨by decide, by decide, by decide⟩

/-- C6 witness: a session whose Home landmark is present on every check. -/
theorem login_idempotent_when_authenticated_witness :
    login ⟨fun _ => true, .ok (), .ok (), .ok ()⟩ =
      (.ok true, [.navigate, .checkHome]) :=
  (login_idempotent_when_authenticated
    ⟨fun _ => true, .ok (), .ok (), .ok ()⟩
    ⟨fun _ => true, .ok (), .ok (), .ok ()⟩ rfl rfl).1

/-- C7: when the input file does not exist, or its extension (lower-cased)
is outside the allow-list, `post_image` raises a validation failure (a
wrapped `FileNotFoundError` or `ValueError`) and its remote-driver trace is
empty — no click, write or wait was issued. -/
theorem post_image_validation_rejects_before_driver (d : PostDriver)
    (imagePath caption : String)
    (h : d.fileExists = false ∨ strLower (splitext_ext imagePath) ∉ allowed_extensions) :
    (post_image d imagePath caption).2 = [] ∧
    ((post_image d imagePath caption).1 =
        .error (postWrap (.fileNotFound ("Image file not found: " ++ imagePath))) ∨
     (post_image d imagePath caption).1 =
        .error (postWrap (.valueError
          ("Unsupported file type: " ++ strLower (splitext_ext imagePath))))) := by
  rcases h with h | h
  · constructor
    · simp [post_image, h]
    · left
      simp [post_image, h]
  · cases hfe : d.fileExists
    · constructor
      · simp [post_image, hfe]
      · left
        simp [post_image, hfe]
    · constructor
      · simp [post_image, hfe, h]
      · right
        simp [post_image, hfe, h]

/-- C7 witness: a `.txt` file that exists — rejected with an empty driver
trace. -/
theorem post_image_validation_rejects_before_driver_witness :
    (post_image
        ⟨true, .ok (), .ok (), .ok (), fun _ => false, [], .ok (), fun _ => false,
         [], .ok (), fun _ => false, .ok (), [], .ok (), fun _ => false⟩
        "note.txt" "cap").2 = [] ∧
    ((post_image
        ⟨true, .ok (), .ok (), .ok (), fun _ => false, [], .ok (), fun _ => false,
         [], .ok (), fun _ => false, .ok (), [], .ok (), fun _ => false⟩
        "note.txt" "cap").1 =
        .error (postWrap (.fileNotFound ("Image file not found: " ++ "note.txt"))) ∨
     (post_image
        ⟨true, .ok (), .ok (), .ok (), fun _ => false, [], .ok (), fun _ => false,
         [], .ok (), fun _ => false, .ok (), [], .ok (), fun _ => false⟩
        "note.txt" "cap").1 =
        .error (postWrap (.valueError
          ("Unsupported file type: " ++ strLower (splitext_ext "note.txt"))))) :=
  post_image_validation_rejects_before_driver _ "note.txt" "cap" (Or.inr (by decide))

/-- C8: when the crop-dialog wait exhausts its 20-attempt budget,
`post_image` fails with the step-named message
`"Post failed: Crop dialog not found"`, and its trace ends at the crop
poll — the edit-dialog Next click, the caption write, the Share click and
the completion wait are never issued. -/
theorem post_image_crop_timeout_stops_workflow (d : PostDriver)
    (imagePath caption : String)
    (hex : d.fileExists = true)
    (hext : strLower (splitext_ext imagePath) ∈ allowed_extensions)
    (h1 : d.newPostClick = .ok ()) (h2 : d.selectNewClick = .ok ())
    (h3 : d.fileInputWrite = .ok ())
    (hcrop : ∀ i, d.cropPresent i = false) :
    post_image d imagePath caption =
      (.error (.exception "Post failed: Crop dialog not found"),
       [.clickNewPost, .clickSelectNew, .writeFileInput imagePath, .pollCrop]) := by
  have hpoll : (wait_until_bounded d.cropPresent 20).result = false := by
    rw [wait_until_bounded, waitLoop_always_false d.cropPresent hcrop 20 0]
  simp [post_image, hex, hext, h1, h2, h3, hpoll, postWrap, PyExc.msg]

/-- C8 witness: a valid `.jpg` upload whose crop dialog never appears. -/
theorem post_image_crop_timeout_stops_workflow_witness :
    post_image
        ⟨true, .ok (), .ok (), .ok (), fun _ => false, ["Next"], .ok (),
         fun _ => false, ["Next"], .ok (), fun _ => false, .ok (), ["Share"],
         .ok (), fun _ => false⟩
        "a.jpg" "cap" =
      (.error (.exception "Post failed: Crop dialog not found"),
       [.clickNewPost, .clickSelectNew, .writeFileInput "a.jpg", .pollCrop]) :=
  post_image_crop_timeout_stops_workflow _ "a.jpg" "cap" rfl (by decide)
    rfl rfl rfl (fun _ => rfl)

/-- C9: `kill_browser` is not idempotent after a completed teardown — the
claim that a second teardown on a dead session is a no-op fails, because
the method never clears `self.driver`, so the state after the first call
still has the driver set and a second call re-issues `quit`, the context
exit, and the profile deletion. -/
theorem kill_browser_second_teardown_not_noop :
    (kill_browser ⟨true⟩ "LINUX" true).1 = ⟨true⟩ ∧
    kill_browser (kill_browser ⟨true⟩ "LINUX" true).1 "LINUX" true =
      (⟨true⟩, [.quit, .exitContext, .deleteProfile]) ∧
    (kill_browser (kill_browser ⟨true⟩ "LINUX" true).1 "LINUX" true).2 ≠ [] :=
  ⟨by decide, by decide, by decide⟩
